import Mathlib

/-!
Verification development for the serial-console protocol engine of
`coppercomm` (`src/coppercomm/device_serial/serial_console_interface.py`).

The Python class `SerialConsoleInterface` is embedded shallowly:

* `re.search` is abstracted as a function `ReSearch : String → String → Option String`
  taking the pattern string and the line and returning `group(0)` of the match
  (`none` when there is no match).  A compiled regex is identified by its
  pattern string (`SCPattern.re`), the pexpect `TIMEOUT` sentinel by
  `SCPattern.timeoutSentinel`.
* The wall clock of `_expect` is abstracted per loop iteration: the input
  stream is a list of pairs `(event, deadlinePassed)`, where `event` is what
  `_get_line` sees for that iteration and `deadlinePassed` models the value of
  `datetime.now(tz=timezone.utc) > end_time` at that iteration's check.  The
  argument `timeoutPos` models `timeout > 0`.
* Exceptions are values: method results are inductive types carrying the
  raise site's data, and `raiseException` builds the message raised by
  `SerialConsoleInterface._raise_exception`.
* The Python attribute `_prompt_regex` is modelled as `Option String`
  (`none` = Python `None`, `some s` = the string `s`), because `_expect`
  tests it with `is not None`.
-/

namespace Coppercomm

/-- `SerialConsoleInterface.NOT_EXPECTING` -/
def NOT_EXPECTING : Int := -1

/-- `SerialConsoleInterface.PROMPT_ONLY` -/
def PROMPT_ONLY : Int := -2

/-- Semantics of `re.search`: pattern string, line, and the matched substring
(`group(0)`) if any. -/
abbrev ReSearch := String → String → Option String

/-- An element of a compiled pattern list: a compiled regex (identified by its
pattern string) or the pexpect `TIMEOUT` sentinel. -/
inductive SCPattern where
  | re (pat : String)
  | timeoutSentinel
deriving DecidableEq

/-- Exception classes raised by the serial console code. -/
inductive ErrCls where
  | assertionError
  | copperCommConnectionError
  | serialConnectionError
deriving DecidableEq

/-- A raised exception: class and message. -/
structure SCError where
  cls : ErrCls
  msg : String
deriving DecidableEq

/-- `_raise_exception`: raises `exception_cls(f"[{self.connection_name}]: {exception_message}")`. -/
def raiseException (connectionName : String) (exceptionMessage : String)
    (exceptionCls : ErrCls) : SCError :=
  ⟨exceptionCls, "[" ++ connectionName ++ "]: " ++ exceptionMessage⟩

/-- What `self.connection.expect("\n", timeout=0.2)` can do on one `_get_line`
call: a full line arrives (`newline before`), the 0.2 s poll expires
(`pollTimeout before`, partial buffer), or the stream is closed (`eof`). -/
inductive LineEvent where
  | newline (before : String)
  | pollTimeout (before : String)
  | eof
deriving DecidableEq

/-- The line `_get_line` would return for an event, `none` for `eof`. -/
def eventLine : LineEvent → Option String
  | .newline b => some b
  | .pollTimeout b => some b
  | .eof => none

/-- `_get_line`: on success or pexpect `TIMEOUT` return `str(self.connection.before)`;
on `EOF` raise `SerialConnectionError("EOF occurred - connection lost")` via
`_raise_exception`. -/
def get_line (connectionName : String) : LineEvent → Except SCError String
  | .newline b => .ok b
  | .pollTimeout b => .ok b
  | .eof => .error (raiseException connectionName "EOF occurred - connection lost"
      .serialConnectionError)

/-- Characters escaped by Python `re.escape` (Python ≥ 3.7 escapes exactly the
characters that can have special regex meaning). -/
def reEscapeSpecial : List Char :=
  ['(', ')', '[', ']', '\x7b', '\x7d', '?', '*', '+', '-', '|', '^', '$',
   '\\', '.', '&', '~', '#', ' ', '\t', '\n', '\r', '\x0b', '\x0c']

/-- Model of Python `re.escape`. -/
def reEscape (s : String) : String :=
  String.join (s.toList.map fun c =>
    if reEscapeSpecial.contains c then String.mk ['\\', c] else String.mk [c])

/-- A prompt specification as accepted by `set_prompt` / `_expect`'s `prompt`
argument: Python `str` or `List[str]` (`None` is `Option.none` at use sites). -/
inductive PromptSpec where
  | str (s : String)
  | list (l : List String)

/-- `x.startswith("\\")`: the string's first character is a backslash
(modelled on the character list). -/
def startsWithBackslash (x : String) : Bool :=
  List.isPrefixOf ['\\'] x.toList

/-- One alternative inside `_get_prompt_regex`: strings starting with a
backslash are taken verbatim, anything else is `re.escape`d. -/
def promptFragment (x : String) : String :=
  if startsWithBackslash x then x else reEscape x

/-- `_get_prompt_regex`. -/
def get_prompt_regex : Option PromptSpec → String
  | none => ""
  | some (.str s) => promptFragment s
  | some (.list l) => String.intercalate "|" (l.map promptFragment)

/-- The mutable state of one `SerialConsoleInterface` that the foreground
operations touch.  `promptRegex` is the Python attribute `_prompt_regex`
(an `Option` because the code tests it with `is not None`); `matched` is
`_matched`; `outputLines` is `_output_lines`; `streaming` is the
`_streaming` event's flag; `lockCount` is the recursion count of the
`_lock` RLock held by the modelled caller. -/
structure Session where
  connectionName : String
  promptRegex : Option String
  matched : String
  outputLines : List String
  streaming : Bool
  lockCount : Nat
deriving DecidableEq

/-- `set_prompt`: stores `_get_prompt_regex(prompt)` (always a string, never
Python `None`). -/
def set_prompt (s : Session) (prompt : Option PromptSpec) : Session :=
  { s with promptRegex := some (get_prompt_regex prompt) }

/-- `__init__(connection_address, connection_name, prompt)`: flags set, empty
match and output, then `set_prompt(prompt)`. -/
def mkSession (connectionName : String) (prompt : Option PromptSpec) : Session :=
  set_prompt
    { connectionName := connectionName
      promptRegex := none
      matched := ""
      outputLines := []
      streaming := true
      lockCount := 0 }
    prompt

/-- `get_matched`. -/
def get_matched (s : Session) : String :=
  s.matched

/-- Python truthiness of the `Option String`-valued attribute `_prompt_regex`:
`None` and `""` are falsy. -/
def pyTruthyStrOpt : Option String → Bool
  | none => false
  | some s => !s.isEmpty

/-- `get_output`: `"\n".join(self._output_lines[:-1])` when `self._prompt_regex`
is truthy, else `"\n".join(self._output_lines)`. -/
def get_output (s : Session) : String :=
  if pyTruthyStrOpt s.promptRegex then
    String.intercalate "\n" s.outputLines.dropLast
  else
    String.intercalate "\n" s.outputLines

/-- `line.replace("\r", "")`. -/
def stripCR (s : String) : String :=
  String.mk (s.toList.filter fun c => c ≠ '\r')

/-- `_compile_pattern_list`: strings are compiled with `re.compile`, compiled
patterns and the `TIMEOUT` sentinel pass through.  A compiled regex is
identified by its pattern string in this model, so compilation is the
identity on `SCPattern`. -/
def compile_pattern_list (patterns : List SCPattern) : List SCPattern :=
  patterns

/-- Whether a pattern from a compiled list matches a line, with the
`is not TIMEOUT` guard of `_expect`: the sentinel is never searched. -/
def patMatches (reSearch : ReSearch) (p : SCPattern) (line : String) : Bool :=
  match p with
  | .re pat => (reSearch pat line).isSome
  | .timeoutSentinel => false

/-- The `for not_expected_el in not_expected` scan: the first non-sentinel
pattern whose `re.search` on the line succeeds (`_expect` raises on it). -/
def firstNotExpectedMatch (reSearch : ReSearch) (notExpected : List SCPattern)
    (line : String) : Option SCPattern :=
  notExpected.find? (fun p => patMatches reSearch p line)

/-- The `for idx, expected_item in enumerate(expected)` scan.  The accumulator
is `(expected_found, self._matched)`; an item updates both exactly when it is
not the sentinel, `re.search` succeeds, and `self._matched` is falsy (the
empty string). -/
def scanExpected (reSearch : ReSearch) (line : String) :
    List SCPattern → Nat → Option Nat × String → Option Nat × String
  | [], _, acc => acc
  | p :: rest, idx, acc =>
    let acc' :=
      match p with
      | .timeoutSentinel => acc
      | .re pat =>
        match reSearch pat line with
        | some m => if acc.2 = "" then (some idx, m) else acc
        | none => acc
    scanExpected reSearch line rest (idx + 1) acc'

/-- The per-cycle locals of `_expect` together with the session fields it
mutates: `prompt_found`, `expected_found`, `self._matched`,
`self._output_lines`. -/
structure ExpectState where
  promptFound : Bool
  expectedFound : Option Nat
  matched : String
  outputLines : List String
deriving DecidableEq

/-- What one loop iteration of `_expect` decides after the scans: return a
match index, or raise on a not-expected pattern. -/
inductive StepDecision where
  | ret (idx : Int)
  | raiseUnexpected (p : SCPattern)
deriving DecidableEq

/-- The body of `_expect`'s `while True` iteration after `_get_line`, up to
(but excluding) the timeout check: append the CR-stripped line, mark the
prompt, scan not-expected (raising on the first match), scan expected, then
test the return condition
`prompt_found and not (expected_found is None and (expected or not_expected))`. -/
def processLine (reSearch : ReSearch) (expected notExpected : List SCPattern)
    (promptRegex : String) (waitForPrompt : Bool) (st : ExpectState)
    (line : String) : ExpectState × Option StepDecision :=
  let st := { st with outputLines := st.outputLines ++ [stripCR line] }
  let st :=
    if waitForPrompt && (reSearch promptRegex line).isSome then
      { st with promptFound := true }
    else st
  match firstNotExpectedMatch reSearch notExpected line with
  | some p => (st, some (.raiseUnexpected p))
  | none =>
    let acc := scanExpected reSearch line expected 0 (st.expectedFound, st.matched)
    let st := { st with expectedFound := acc.1, matched := acc.2 }
    if st.promptFound
        && !(st.expectedFound.isNone && (!expected.isEmpty || !notExpected.isEmpty)) then
      (st, some (.ret (match st.expectedFound with
        | some i => (i : Int)
        | none => PROMPT_ONLY)))
    else
      (st, none)

/-- Outcome of a foreground operation.  Raising constructors carry the data of
the corresponding raise site in the source; `running` means the modelled
stream was exhausted with the loop still going (reachable only when the
deadline never passes within the modelled stream). -/
inductive ExpectResult where
  | ok (idx : Int)
  | valueError (msg : String)
  | unexpected (p : SCPattern)
  | promptNotFound (regex : String)
  | expectedNotFound
  | echoNotFound (e : SCError)
  | connLost (e : SCError)
  | running
deriving DecidableEq

/-- The `if timeout > 0 and datetime.now(...) > end_time` block of `_expect`,
in source order: prompt required and missing → raise `CopperCommConnectionError`
citing the prompt regex; no expected patterns → return `NOT_EXPECTING`;
`TIMEOUT` among the expected patterns → return its first index; otherwise
raise "Expected ... not found!". -/
def timeoutBranch (expected : List SCPattern) (promptRegex : String)
    (waitForPrompt : Bool) (st : ExpectState) : ExpectResult :=
  if waitForPrompt && !st.promptFound then
    .promptNotFound promptRegex
  else if expected.isEmpty then
    .ok NOT_EXPECTING
  else if expected.contains .timeoutSentinel then
    .ok (expected.indexOf .timeoutSentinel : Nat)
  else
    .expectedNotFound

/-- The `while True` loop of `_expect` over a modelled stream of
`(line event, deadline passed)` pairs.  Each iteration: `_get_line` (its EOF
exception propagates), the per-line body, then the timeout check. -/
def expectLoop (reSearch : ReSearch) (connectionName : String)
    (expected notExpected : List SCPattern) (promptRegex : String)
    (waitForPrompt : Bool) (timeoutPos : Bool) (st : ExpectState) :
    List (LineEvent × Bool) → ExpectResult × ExpectState
  | [] => (.running, st)
  | (ev, deadlinePassed) :: rest =>
    match get_line connectionName ev with
    | .error e => (.connLost e, st)
    | .ok line =>
      let step := processLine reSearch expected notExpected promptRegex waitForPrompt st line
      match step.2 with
      | some (.ret i) => (.ok i, step.1)
      | some (.raiseUnexpected p) => (.unexpected p, step.1)
      | none =>
        if timeoutPos && deadlinePassed then
          (timeoutBranch expected promptRegex waitForPrompt step.1, step.1)
        else
          expectLoop reSearch connectionName expected notExpected promptRegex
            waitForPrompt timeoutPos step.1 rest

/-- The prompt-resolution block of `_expect` (source lines 359–368): explicit
`prompt` argument wins, else the session's `_prompt_regex` when it
`is not None`, else raise `ValueError` if `wait_for_prompt` else `""`. -/
def resolvePromptRegex (sessionPromptRegex : Option String)
    (promptArg : Option PromptSpec) (waitForPrompt : Bool) :
    Except String String :=
  match promptArg with
  | some p => .ok (get_prompt_regex (some p))
  | none =>
    match sessionPromptRegex with
    | some r => .ok r
    | none =>
      if waitForPrompt then
        .error "Prompt not provieded while wait_for_prompt is enabled"
      else
        .ok ""

/-- `_expect`: validation, prompt resolution, state reset
(`prompt_found = False if wait_for_prompt else True`, `self._matched = ""`,
`self._output_lines.clear()`), then the loop.  The returned session carries
the final `_matched` and `_output_lines`. -/
def expectCore (reSearch : ReSearch) (sess : Session)
    (expectedIn notExpectedIn : List SCPattern) (timeoutPos : Bool)
    (waitForPrompt : Bool) (promptArg : Option PromptSpec)
    (stream : List (LineEvent × Bool)) : ExpectResult × Session :=
  let expected := compile_pattern_list expectedIn
  let notExpected := compile_pattern_list notExpectedIn
  if expected.isEmpty && notExpected.isEmpty && !waitForPrompt then
    (.valueError
      "Either 'expected' or 'not_expected' value should be given while wait_for_prompt is disabled",
      sess)
  else
    match resolvePromptRegex sess.promptRegex promptArg waitForPrompt with
    | .error m => (.valueError m, sess)
    | .ok promptRegex =>
      let st0 : ExpectState :=
        { promptFound := !waitForPrompt
          expectedFound := none
          matched := ""
          outputLines := [] }
      let r := expectLoop reSearch sess.connectionName expected notExpected
        promptRegex waitForPrompt timeoutPos st0 stream
      (r.1, { sess with matched := r.2.matched, outputLines := r.2.outputLines })

/-- The public `expect(expected, not_expected=None, timeout=0)`: default the
not-expected list, clear `_streaming`, acquire the lock, run `_expect` with
`wait_for_prompt=False`, and in `finally` set `_streaming` and release the
lock on every path. -/
def expectMethod (reSearch : ReSearch) (sess : Session)
    (expected : List SCPattern) (notExpectedArg : Option (List SCPattern))
    (timeoutPos : Bool) (stream : List (LineEvent × Bool)) :
    ExpectResult × Session :=
  let notExpected := notExpectedArg.getD []
  let sess := { sess with streaming := false, lockCount := sess.lockCount + 1 }
  let r := expectCore reSearch sess expected notExpected timeoutPos false none stream
  (r.1, { r.2 with streaming := true, lockCount := r.2.lockCount - 1 })

/-- The inner echo window of `_send_command`: pull lines until the 2 s window
closes (the modelled window list is what is pulled before it closes) and
report whether `re.search(re.escape(command), line)` ever succeeded.
`_get_line`'s EOF exception propagates. -/
def echoWindowScan (reSearch : ReSearch) (connectionName escaped : String) :
    List LineEvent → Except SCError Bool
  | [] => .ok false
  | ev :: rest =>
    match get_line connectionName ev with
    | .error e => .error e
    | .ok line =>
      if (reSearch escaped line).isSome then .ok true
      else echoWindowScan reSearch connectionName escaped rest

/-- The `while max_retypes > 0` loop of `_send_command` with `check_echo`:
each iteration writes the full command once (`sendline`/`send`), then scans
that attempt's echo window; on a miss the budget is decremented and the
command is retyped.  Returns the outcome together with the list of writes
performed (each entry is the full command text). -/
def sendRetypeLoop (reSearch : ReSearch) (connectionName command escaped : String) :
    Nat → List (List LineEvent) → ExpectResult × List String
  | 0, _ =>
    (.echoNotFound (raiseException connectionName
      ("Echo of command <" ++ command ++ "> not found") .copperCommConnectionError),
     [])
  | n + 1, windows =>
    match echoWindowScan reSearch connectionName escaped (windows.headD []) with
    | .error e => (.connLost e, [command])
    | .ok true => (.ok NOT_EXPECTING, [command])
    | .ok false =>
      let r := sendRetypeLoop reSearch connectionName command escaped n windows.tail
      (r.1, command :: r.2)

/-- `_send_command(command, max_retypes, check_echo, send_linebreak)`.
With `check_echo` the retype loop runs (a non-positive `max_retypes` skips the
loop and raises at once); without it the write is fire-and-forget.  The `.ok`
index is unused by the caller (`_send_command` returns `None`); the write
trace records each transmission of the full command. -/
def send_command_core (reSearch : ReSearch) (connectionName command : String)
    (maxRetypes : Int) (checkEcho : Bool)
    (windows : List (List LineEvent)) : ExpectResult × List String :=
  if checkEcho then
    sendRetypeLoop reSearch connectionName command (reEscape command)
      maxRetypes.toNat windows
  else
    (.ok NOT_EXPECTING, [command])

/-- The public `send_command(...)`: default the pattern lists, clear
`_streaming`, acquire the lock, `_send_command`, then `_expect` only when a
pattern list is non-empty or `wait_for_prompt` is set, and in `finally` set
`_streaming` and release the lock on every path.  Returns the result, the
final session, and the write trace. -/
def sendCommandMethod (reSearch : ReSearch) (sess : Session) (command : String)
    (maxRetypes : Int) (checkEcho : Bool)
    (expectedArg notExpectedArg : Option (List SCPattern)) (timeoutPos : Bool)
    (waitForPrompt : Bool) (promptArg : Option PromptSpec)
    (windows : List (List LineEvent)) (stream : List (LineEvent × Bool)) :
    ExpectResult × Session × List String :=
  let expectedIn := expectedArg.getD []
  let notExpected := notExpectedArg.getD []
  let sess := { sess with streaming := false, lockCount := sess.lockCount + 1 }
  let s := send_command_core reSearch sess.connectionName command maxRetypes checkEcho windows
  let r :=
    match s.1 with
    | .ok _ =>
      if !expectedIn.isEmpty || !notExpected.isEmpty || waitForPrompt then
        expectCore reSearch sess expectedIn notExpected timeoutPos waitForPrompt
          promptArg stream
      else
        (.ok NOT_EXPECTING, sess)
    | other => (other, sess)
  (r.1, { r.2 with streaming := true, lockCount := r.2.lockCount - 1 }, s.2)

/-- Substring test on character lists (`needle` occurs somewhere in `hay`). -/
def containsSub (needle : List Char) : List Char → Bool
  | [] => needle.isEmpty
  | c :: t => needle.isPrefixOf (c :: t) || containsSub needle t

/-- A concrete `re.search` semantics for regexes that are plain literals
without special characters (or the empty pattern): `re.search(p, l)` succeeds
iff `p` occurs in `l`, and `group(0)` is then `p` itself.  This agrees with
Python's `re` on every pattern string free of regex metacharacters, which is
the only kind used in the concrete runs below. -/
def litSearch : ReSearch := fun pat line =>
  if containsSub pat.toList line.toList then some pat else none

/-- The timeout cascade exactly as the specification states it (claim C6):
prompt required and never found → connection error citing the prompt regex;
empty expected list → `NOT_EXPECTING`; timeout sentinel among the expected
patterns → its first index; otherwise the expected-pattern-not-found error. -/
def timeoutOutcomeSpec (expected : List SCPattern) (promptRegex : String)
    (promptRequired promptFound : Bool) : ExpectResult :=
  if promptRequired && !promptFound then
    .promptNotFound promptRegex
  else if expected = [] then
    .ok NOT_EXPECTING
  else if .timeoutSentinel ∈ expected then
    .ok (expected.indexOf .timeoutSentinel : Nat)
  else
    .expectedNotFound

/-! ## Helper lemmas -/

theorem scanExpected_of_matched_ne (reSearch : ReSearch) (line : String)
    (l : List SCPattern) (idx : Nat) (acc : Option Nat × String)
    (h : acc.2 ≠ "") :
    scanExpected reSearch line l idx acc = acc := by
  induction l generalizing idx with
  | nil => rfl
  | cons p rest ih =>
    unfold scanExpected
    cases p with
    | timeoutSentinel => exact ih _
    | re pat =>
      cases hr : reSearch pat line with
      | none => simp only [hr]; exact ih _
      | some m => simp only [hr, if_neg h]; exact ih _

theorem processLine_of_matched_ne (reSearch : ReSearch)
    (expected notExpected : List SCPattern) (promptRegex : String)
    (waitForPrompt : Bool) (st : ExpectState) (line : String)
    (h : st.matched ≠ "") :
    (processLine reSearch expected notExpected promptRegex waitForPrompt st line).1.matched
        = st.matched
    ∧ (processLine reSearch expected notExpected promptRegex waitForPrompt st line).1.expectedFound
        = st.expectedFound := by
  unfold processLine
  cases hfn : firstNotExpectedMatch reSearch notExpected line with
  | some p => split <;> simp [hfn]
  | none =>
    have hscan :
        scanExpected reSearch line expected 0
          ((if waitForPrompt && (reSearch promptRegex line).isSome then
              { st with outputLines := st.outputLines ++ [stripCR line], promptFound := true }
            else
              { st with outputLines := st.outputLines ++ [stripCR line] }).expectedFound,
           (if waitForPrompt && (reSearch promptRegex line).isSome then
              { st with outputLines := st.outputLines ++ [stripCR line], promptFound := true }
            else
              { st with outputLines := st.outputLines ++ [stripCR line] }).matched)
          = (st.expectedFound, st.matched) := by
      split <;> exact scanExpected_of_matched_ne _ _ _ _ _ h
    split <;> simp_all <;> split <;> simp_all

theorem expectLoop_of_matched_ne (reSearch : ReSearch) (connectionName : String)
    (expected notExpected : List SCPattern) (promptRegex : String)
    (waitForPrompt timeoutPos : Bool) (st : ExpectState)
    (stream : List (LineEvent × Bool)) (h : st.matched ≠ "") :
    (expectLoop reSearch connectionName expected notExpected promptRegex
        waitForPrompt timeoutPos st stream).2.matched = st.matched
    ∧ (expectLoop reSearch connectionName expected notExpected promptRegex
        waitForPrompt timeoutPos st stream).2.expectedFound = st.expectedFound := by
  induction stream generalizing st with
  | nil => exact ⟨rfl, rfl⟩
  | cons e rest ih =>
    obtain ⟨ev, dl⟩ := e
    unfold expectLoop
    cases hg : get_line connectionName ev with
    | error err => simp [hg]
    | ok line =>
      obtain ⟨hm, hf⟩ := processLine_of_matched_ne reSearch expected notExpected
        promptRegex waitForPrompt st line h
      cases hd : (processLine reSearch expected notExpected promptRegex
          waitForPrompt st line).2 with
      | some dec => cases dec <;> simp [hg, hd, hm, hf]
      | none =>
        by_cases ht : (timeoutPos && dl) = true
        · simp [hg, hd, ht, hm, hf]
        · have := ih (processLine reSearch expected notExpected promptRegex
            waitForPrompt st line).1 (by rw [hm]; exact h)
          simp [hg, hd, ht]
          rw [this.1, this.2, hm, hf]
          exact ⟨rfl, rfl⟩

theorem expectCore_preserves_frame (reSearch : ReSearch) (sess : Session)
    (expectedIn notExpectedIn : List SCPattern) (timeoutPos waitForPrompt : Bool)
    (promptArg : Option PromptSpec) (stream : List (LineEvent × Bool)) :
    (expectCore reSearch sess expectedIn notExpectedIn timeoutPos waitForPrompt
        promptArg stream).2.streaming = sess.streaming
    ∧ (expectCore reSearch sess expectedIn notExpectedIn timeoutPos waitForPrompt
        promptArg stream).2.lockCount = sess.lockCount
    ∧ (expectCore reSearch sess expectedIn notExpectedIn timeoutPos waitForPrompt
        promptArg stream).2.promptRegex = sess.promptRegex
    ∧ (expectCore reSearch sess expectedIn notExpectedIn timeoutPos waitForPrompt
        promptArg stream).2.connectionName = sess.connectionName := by
  unfold expectCore
  by_cases hv : ((compile_pattern_list expectedIn).isEmpty
      && (compile_pattern_list notExpectedIn).isEmpty && !waitForPrompt) = true
  · simp [hv]
  · cases hr : resolvePromptRegex sess.promptRegex promptArg waitForPrompt with
    | error m => simp [hv, hr]
    | ok r => simp [hv, hr]

theorem get_line_ok_of_eventLine (connectionName : String) (ev : LineEvent)
    (l : String) (h : eventLine ev = some l) :
    get_line connectionName ev = .ok l := by
  cases ev <;> simp [eventLine] at h <;> simp [get_line, h]

theorem processLine_promptFound_eq (reSearch : ReSearch)
    (expected notExpected : List SCPattern) (promptRegex : String)
    (waitForPrompt : Bool) (st : ExpectState) (line : String) :
    (processLine reSearch expected notExpected promptRegex waitForPrompt st line).1.promptFound
      = (st.promptFound || (waitForPrompt && (reSearch promptRegex line).isSome)) := by
  unfold processLine
  cases hfn : firstNotExpectedMatch reSearch notExpected line <;>
    by_cases hw : (waitForPrompt && (reSearch promptRegex line).isSome) = true <;>
      simp [hfn, hw] <;> split <;> simp

theorem processLine_ret_promptFound (reSearch : ReSearch)
    (expected notExpected : List SCPattern) (promptRegex : String)
    (waitForPrompt : Bool) (st : ExpectState) (line : String) (i : Int)
    (h : (processLine reSearch expected notExpected promptRegex waitForPrompt st line).2
      = some (.ret i)) :
    (processLine reSearch expected notExpected promptRegex waitForPrompt st line).1.promptFound
      = true := by
  unfold processLine at h ⊢
  cases hfn : firstNotExpectedMatch reSearch notExpected line with
  | some p => simp [hfn] at h
  | none =>
    by_cases hw : (waitForPrompt && (reSearch promptRegex line).isSome) = true
    · simp only [hfn, hw, if_true]
      split <;> rfl
    · by_cases hspf : st.promptFound = true
      · simp only [hfn, hw, if_false, Bool.false_eq_true, hspf]
        split <;> rfl
      · simp only [Bool.not_eq_true] at hspf
        simp [hfn, hw, hspf] at h

theorem processLine_no_raise_shape (reSearch : ReSearch)
    (expected notExpected : List SCPattern) (promptRegex : String)
    (waitForPrompt : Bool) (st : ExpectState) (line : String)
    (hfn : firstNotExpectedMatch reSearch notExpected line = none) :
    (processLine reSearch expected notExpected promptRegex waitForPrompt st line).2 = none
    ∨ ∃ i, (processLine reSearch expected notExpected promptRegex waitForPrompt st line).2
        = some (.ret i) := by
  unfold processLine
  simp only [hfn]
  split <;> split <;>
    first
      | exact Or.inl rfl
      | exact Or.inr ⟨_, rfl⟩

theorem scanExpected_isSome_mono (reSearch : ReSearch) (line : String)
    (l : List SCPattern) (idx : Nat) (acc : Option Nat × String)
    (h : acc.1.isSome = true) :
    (scanExpected reSearch line l idx acc).1.isSome = true := by
  induction l generalizing idx acc with
  | nil => exact h
  | cons p rest ih =>
    unfold scanExpected
    cases p with
    | timeoutSentinel => exact ih _ _ h
    | re pat =>
      cases hr : reSearch pat line with
      | none => simp only [hr]; exact ih _ _ h
      | some m =>
        simp only [hr]
        by_cases he : acc.2 = ""
        · simp only [he, if_pos rfl]; exact ih _ _ rfl
        · rw [if_neg he]; exact ih _ _ h

theorem processLine_expectedFound_mono (reSearch : ReSearch)
    (expected notExpected : List SCPattern) (promptRegex : String)
    (waitForPrompt : Bool) (st : ExpectState) (line : String)
    (h : st.expectedFound.isSome = true) :
    (processLine reSearch expected notExpected promptRegex waitForPrompt st line).1.expectedFound.isSome
      = true := by
  unfold processLine
  cases hfn : firstNotExpectedMatch reSearch notExpected line with
  | some p => split <;> simpa [hfn] using h
  | none =>
    have := scanExpected_isSome_mono reSearch line expected 0
    simp only [hfn]
    split <;> split <;> simp_all

theorem expectLoop_promptFound_mono (reSearch : ReSearch) (connectionName : String)
    (expected notExpected : List SCPattern) (promptRegex : String)
    (waitForPrompt timeoutPos : Bool) (st : ExpectState)
    (stream : List (LineEvent × Bool)) (h : st.promptFound = true) :
    (expectLoop reSearch connectionName expected notExpected promptRegex
        waitForPrompt timeoutPos st stream).2.promptFound = true := by
  induction stream generalizing st with
  | nil => exact h
  | cons e rest ih =>
    obtain ⟨ev, dl⟩ := e
    unfold expectLoop
    cases hg : get_line connectionName ev with
    | error err => simpa using h
    | ok line =>
      have hpf : (processLine reSearch expected notExpected promptRegex
          waitForPrompt st line).1.promptFound = true := by
        rw [processLine_promptFound_eq, h]; rfl
      cases hd : (processLine reSearch expected notExpected promptRegex
          waitForPrompt st line).2 with
      | some dec => cases dec <;> simpa [hd] using hpf
      | none =>
        by_cases ht : (timeoutPos && dl) = true
        · simpa [hd, ht] using hpf
        · simpa [hd, ht] using ih _ hpf

theorem expectLoop_expectedFound_mono (reSearch : ReSearch) (connectionName : String)
    (expected notExpected : List SCPattern) (promptRegex : String)
    (waitForPrompt timeoutPos : Bool) (st : ExpectState)
    (stream : List (LineEvent × Bool)) (h : st.expectedFound.isSome = true) :
    (expectLoop reSearch connectionName expected notExpected promptRegex
        waitForPrompt timeoutPos st stream).2.expectedFound.isSome = true := by
  induction stream generalizing st with
  | nil => exact h
  | cons e rest ih =>
    obtain ⟨ev, dl⟩ := e
    unfold expectLoop
    cases hg : get_line connectionName ev with
    | error err => simpa using h
    | ok line =>
      have hpf := processLine_expectedFound_mono reSearch expected notExpected
        promptRegex waitForPrompt st line h
      cases hd : (processLine reSearch expected notExpected promptRegex
          waitForPrompt st line).2 with
      | some dec => cases dec <;> simpa [hd] using hpf
      | none =>
        by_cases ht : (timeoutPos && dl) = true
        · simpa [hd, ht] using hpf
        · simpa [hd, ht] using ih _ hpf

theorem timeoutBranch_ok_promptFound (expected : List SCPattern)
    (promptRegex : String) (st : ExpectState) (i : Int)
    (h : timeoutBranch expected promptRegex true st = .ok i) :
    st.promptFound = true := by
  unfold timeoutBranch at h
  by_cases hp : st.promptFound = true
  · exact hp
  · simp [hp] at h

theorem expectLoop_ok_promptFound (reSearch : ReSearch) (connectionName : String)
    (expected notExpected : List SCPattern) (promptRegex : String)
    (timeoutPos : Bool) (st : ExpectState) (stream : List (LineEvent × Bool))
    (i : Int)
    (h : (expectLoop reSearch connectionName expected notExpected promptRegex
        true timeoutPos st stream).1 = .ok i) :
    (expectLoop reSearch connectionName expected notExpected promptRegex
        true timeoutPos st stream).2.promptFound = true := by
  induction stream generalizing st with
  | nil => simp [expectLoop] at h
  | cons e rest ih =>
    obtain ⟨ev, dl⟩ := e
    unfold expectLoop at h ⊢
    cases hg : get_line connectionName ev with
    | error err => simp [hg] at h
    | ok line =>
      cases hd : (processLine reSearch expected notExpected promptRegex
          true st line).2 with
      | some dec =>
        cases dec with
        | ret j =>
          simpa [hg, hd] using processLine_ret_promptFound reSearch expected
            notExpected promptRegex true st line j hd
        | raiseUnexpected p => simp [hg, hd] at h
      | none =>
        by_cases ht : (timeoutPos && dl) = true
        · simp only [hg, hd, ht, if_true] at h ⊢
          exact timeoutBranch_ok_promptFound expected promptRegex _ i h
        · simp only [hg, hd, ht, if_false, Bool.false_eq_true] at h ⊢
          exact ih _ h

theorem expectLoop_prompt_never_found (reSearch : ReSearch) (connectionName : String)
    (expected notExpected : List SCPattern) (promptRegex : String)
    (st : ExpectState) (stream : List (LineEvent × Bool))
    (hpf : st.promptFound = false)
    (hstream : ∀ e ∈ stream, ∃ l, eventLine e.1 = some l
      ∧ (reSearch promptRegex l).isNone = true
      ∧ firstNotExpectedMatch reSearch notExpected l = none)
    (hflag : ∃ e ∈ stream, e.2 = true) :
    (expectLoop reSearch connectionName expected notExpected promptRegex
        true true st stream).1 = .promptNotFound promptRegex := by
  induction stream generalizing st with
  | nil => simp at hflag
  | cons e rest ih =>
    obtain ⟨ev, dl⟩ := e
    obtain ⟨l, hl, hnp, hfn⟩ := hstream _ (List.mem_cons_self _ _)
    have hg : get_line connectionName ev = .ok l :=
      get_line_ok_of_eventLine connectionName ev l hl
    have hpf' : (processLine reSearch expected notExpected promptRegex
        true st l).1.promptFound = false := by
      rw [processLine_promptFound_eq, hpf]
      simp [Option.isNone_iff_eq_none.mp hnp]
    have hshape := processLine_no_raise_shape reSearch expected notExpected
      promptRegex true st l hfn
    unfold expectLoop
    cases hd : (processLine reSearch expected notExpected promptRegex
        true st l).2 with
    | some dec =>
      cases dec with
      | ret j =>
        have := processLine_ret_promptFound reSearch expected notExpected
          promptRegex true st l j hd
        rw [hpf'] at this
        exact absurd this (by simp)
      | raiseUnexpected p =>
        rcases hshape with h1 | ⟨j, h2⟩
        · rw [hd] at h1; exact absurd h1 (by simp)
        · rw [hd] at h2; exact absurd h2 (by simp)
    | none =>
      cases dl with
      | true =>
        simp only [hg, hd, Bool.and_self, if_true]
        unfold timeoutBranch
        rw [hpf']
        rfl
      | false =>
        simp only [hg, hd, Bool.and_false, Bool.false_eq_true, if_false]
        refine ih _ hpf' (fun e he => hstream e (List.mem_cons_of_mem _ he)) ?_
        rcases hflag with ⟨f, hf, hft⟩
        rcases List.mem_cons.mp hf with rfl | hfr
        · simp at hft
        · exact ⟨f, hfr, hft⟩

/-! ## Claim theorems -/

/-- C1: on any line of an expect cycle that matches a (non-sentinel)
not-expected pattern, `_expect` raises the unexpected-pattern error
immediately — whatever the rest of the stream holds — and never returns a
match index there; the expected scan is not even performed on that line
(`_matched` and `expected_found` are untouched), so a simultaneous expected
match cannot win.  The line is still captured in `_output_lines`. -/
theorem c1_not_expected_priority (reSearch : ReSearch) (connectionName : String)
    (expected notExpected : List SCPattern) (promptRegex : String)
    (waitForPrompt timeoutPos : Bool) (st : ExpectState) (line : String)
    (deadlinePassed : Bool) (rest : List (LineEvent × Bool))
    (h : ∃ p ∈ notExpected, patMatches reSearch p line = true) :
    ∃ p ∈ notExpected,
      patMatches reSearch p line = true
      ∧ (expectLoop reSearch connectionName expected notExpected promptRegex
          waitForPrompt timeoutPos st ((LineEvent.newline line, deadlinePassed) :: rest)).1
            = .unexpected p
      ∧ (expectLoop reSearch connectionName expected notExpected promptRegex
          waitForPrompt timeoutPos st ((LineEvent.newline line, deadlinePassed) :: rest)).2.matched
            = st.matched
      ∧ (expectLoop reSearch connectionName expected notExpected promptRegex
          waitForPrompt timeoutPos st ((LineEvent.newline line, deadlinePassed) :: rest)).2.expectedFound
            = st.expectedFound
      ∧ (expectLoop reSearch connectionName expected notExpected promptRegex
          waitForPrompt timeoutPos st ((LineEvent.newline line, deadlinePassed) :: rest)).2.outputLines
            = st.outputLines ++ [stripCR line] := by
  have hsome : (notExpected.find? (fun p => patMatches reSearch p line)).isSome := by
    rw [List.find?_isSome]
    obtain ⟨p, hp, hm⟩ := h
    exact ⟨p, hp, hm⟩
  cases hfind : notExpected.find? (fun p => patMatches reSearch p line) with
  | none => rw [hfind] at hsome; simp at hsome
  | some q =>
    refine ⟨q, List.mem_of_find?_eq_some hfind, by simpa using List.find?_some hfind, ?_⟩
    have hfn : firstNotExpectedMatch reSearch notExpected line = some q := hfind
    unfold expectLoop processLine
    simp only [get_line, hfn]
    split <;> simp

/-- Witness for C1: a concrete line matching both the expected pattern `GOOD`
and the not-expected pattern `BAD` makes the loop raise on `BAD` without
recording the expected match. -/
theorem c1_not_expected_priority_witness :
    ∃ p ∈ [SCPattern.re "BAD"],
      patMatches litSearch p "GOOD BAD" = true
      ∧ (expectLoop litSearch "con" [SCPattern.re "GOOD"] [SCPattern.re "BAD"] ""
          false true ⟨true, none, "", []⟩
          [(LineEvent.newline "GOOD BAD", true)]).1 = .unexpected p
      ∧ (expectLoop litSearch "con" [SCPattern.re "GOOD"] [SCPattern.re "BAD"] ""
          false true ⟨true, none, "", []⟩
          [(LineEvent.newline "GOOD BAD", true)]).2.matched = ""
      ∧ (expectLoop litSearch "con" [SCPattern.re "GOOD"] [SCPattern.re "BAD"] ""
          false true ⟨true, none, "", []⟩
          [(LineEvent.newline "GOOD BAD", true)]).2.expectedFound = none
      ∧ (expectLoop litSearch "con" [SCPattern.re "GOOD"] [SCPattern.re "BAD"] ""
          false true ⟨true, none, "", []⟩
          [(LineEvent.newline "GOOD BAD", true)]).2.outputLines = [] ++ [stripCR "GOOD BAD"] :=
  c1_not_expected_priority litSearch "con" [SCPattern.re "GOOD"] [SCPattern.re "BAD"]
    "" false true ⟨true, none, "", []⟩ "GOOD BAD" true []
    ⟨SCPattern.re "BAD", by decide, by decide⟩

/-- C9: `_get_line` raises exactly on end-of-stream, with a
`SerialConnectionError` whose message is tagged with the connection name;
a poll timeout instead returns the partial buffer accumulated so far, and a
completed line returns the text before the newline. -/
theorem c9_eof_raises (connectionName : String) (ev : LineEvent) :
    ((∃ e, get_line connectionName ev = .error e) ↔ ev = .eof)
    ∧ get_line connectionName .eof =
        .error ⟨.serialConnectionError,
          "[" ++ connectionName ++ "]: " ++ "EOF occurred - connection lost"⟩
    ∧ (∀ b, get_line connectionName (.pollTimeout b) = .ok b)
    ∧ (∀ b, get_line connectionName (.newline b) = .ok b) := by
  refine ⟨⟨?_, ?_⟩, rfl, fun b => rfl, fun b => rfl⟩
  · rintro ⟨e, he⟩
    cases ev <;> simp [get_line] at he ⊢
  · rintro rfl
    exact ⟨_, rfl⟩

/-- Witness for C9 at a concrete connection name and events. -/
theorem c9_eof_raises_witness :
    get_line "serial1" .eof =
      .error ⟨.serialConnectionError,
        "[" ++ "serial1" ++ "]: " ++ "EOF occurred - connection lost"⟩
    ∧ get_line "serial1" (.pollTimeout "par") = .ok "par" :=
  ⟨(c9_eof_raises "serial1" .eof).2.1, (c9_eof_raises "serial1" .eof).2.2.1 "par"⟩

/-- C8: both public foreground operations, `expect` and `send_command`,
restore the session on every exit path — normal return and every modelled
raise alike: the `streaming` flag is set back and the lock count returns to
its entry value, so the lock is never left held and the background reader is
never left paused. -/
theorem c8_finally_restores (reSearch : ReSearch) (sess : Session)
    (expected : List SCPattern) (notExpectedArg expectedArg notExpectedArg2 : Option (List SCPattern))
    (timeoutPos : Bool) (stream : List (LineEvent × Bool)) (command : String)
    (maxRetypes : Int) (checkEcho waitForPrompt : Bool)
    (promptArg : Option PromptSpec) (windows : List (List LineEvent))
    (stream2 : List (LineEvent × Bool)) :
    ((expectMethod reSearch sess expected notExpectedArg timeoutPos stream).2.streaming = true
      ∧ (expectMethod reSearch sess expected notExpectedArg timeoutPos stream).2.lockCount
          = sess.lockCount)
    ∧ ((sendCommandMethod reSearch sess command maxRetypes checkEcho expectedArg
          notExpectedArg2 timeoutPos waitForPrompt promptArg windows stream2).2.1.streaming = true
      ∧ (sendCommandMethod reSearch sess command maxRetypes checkEcho expectedArg
          notExpectedArg2 timeoutPos waitForPrompt promptArg windows stream2).2.1.lockCount
          = sess.lockCount) := by
  constructor
  · constructor
    · rfl
    · show (expectCore reSearch
        { sess with streaming := false, lockCount := sess.lockCount + 1 }
        expected (notExpectedArg.getD []) timeoutPos false none stream).2.lockCount - 1
          = sess.lockCount
      rw [(expectCore_preserves_frame reSearch
        { sess with streaming := false, lockCount := sess.lockCount + 1 }
        expected (notExpectedArg.getD []) timeoutPos false none stream).2.1]
      simp
  · unfold sendCommandMethod
    cases hs : (send_command_core reSearch sess.connectionName command maxRetypes
        checkEcho windows).1 with
    | ok i =>
      by_cases hgo :
          (!(expectedArg.getD []).isEmpty || !(notExpectedArg2.getD []).isEmpty
            || waitForPrompt) = true
      · have hpf := (expectCore_preserves_frame reSearch
          { sess with streaming := false, lockCount := sess.lockCount + 1 }
          (expectedArg.getD []) (notExpectedArg2.getD []) timeoutPos waitForPrompt
          promptArg stream2).2.1
        simp [hs, hgo, hpf]
      · simp [hs, hgo]
    | valueError m => simp [hs]
    | unexpected p => simp [hs]
    | promptNotFound r => simp [hs]
    | expectedNotFound => simp [hs]
    | echoNotFound e => simp [hs]
    | connLost e => simp [hs]
    | running => simp [hs]

/-- Counterexample to C2 as stated: with expected patterns `["", "B"]` the
first pattern (index 0, matching every line with an empty `group(0)`)
matches the line `"xBx"`, yet `expect` returns index 1 and `get_matched()`
is the later-listed pattern's match `"B"` — a later-listed pattern overwrote
the recorded index and `last_matched` within the same cycle. -/
theorem c2_counterexample :
    litSearch "" "xBx" = some ""
    ∧ (expectMethod litSearch (mkSession "con" none)
        [SCPattern.re "", SCPattern.re "B"] none false
        [(LineEvent.newline "xBx", false)]).1 = .ok 1
    ∧ get_matched (expectMethod litSearch (mkSession "con" none)
        [SCPattern.re "", SCPattern.re "B"] none false
        [(LineEvent.newline "xBx", false)]).2 = "B" := by
  refine ⟨by decide, by decide, by decide⟩

/-- C2 (amended): the first-match-wins protection is keyed on `_matched`
being non-empty.  Once an expected pattern has matched with a non-empty
substring, no later line and no later-listed pattern can change `_matched`
or the recorded index for the rest of the cycle; in particular, in the
`[A, B]` scenario with non-empty matches, a line matching `B` before any
line matches `A` fixes index 1 and `get_matched()` stays the `B`-match even
though a later line matches `A`. -/
theorem c2_first_match_wins_amended :
    (∀ (reSearch : ReSearch) (connectionName : String)
        (expected notExpected : List SCPattern) (promptRegex : String)
        (waitForPrompt timeoutPos : Bool) (st : ExpectState)
        (stream : List (LineEvent × Bool)), st.matched ≠ "" →
      (expectLoop reSearch connectionName expected notExpected promptRegex
          waitForPrompt timeoutPos st stream).2.matched = st.matched
      ∧ (expectLoop reSearch connectionName expected notExpected promptRegex
          waitForPrompt timeoutPos st stream).2.expectedFound = st.expectedFound)
    ∧ ((expectCore litSearch (mkSession "con" (some (.str "PROMPT")))
          [SCPattern.re "AAA", SCPattern.re "BBB"] [] false true none
          [(LineEvent.newline "xBBBx", false), (LineEvent.newline "zAAAz", false),
           (LineEvent.newline "PROMPT", false)]).1 = .ok 1
      ∧ get_matched (expectCore litSearch (mkSession "con" (some (.str "PROMPT")))
          [SCPattern.re "AAA", SCPattern.re "BBB"] [] false true none
          [(LineEvent.newline "xBBBx", false), (LineEvent.newline "zAAAz", false),
           (LineEvent.newline "PROMPT", false)]).2 = "BBB"
      ∧ litSearch "AAA" "zAAAz" = some "AAA") := by
  refine ⟨fun r c e ne pr w t st s h =>
    expectLoop_of_matched_ne r c e ne pr w t st s h, by decide, by decide, by decide⟩

/-- Witness for the amended C2 at a concrete non-empty recorded match. -/
theorem c2_first_match_wins_amended_witness :
    (expectLoop litSearch "con" [SCPattern.re "AAA"] [] "" false false
        ⟨true, some 1, "BBB", []⟩ [(LineEvent.newline "zAAAz", false)]).2.matched = "BBB"
    ∧ (expectLoop litSearch "con" [SCPattern.re "AAA"] [] "" false false
        ⟨true, some 1, "BBB", []⟩
        [(LineEvent.newline "zAAAz", false)]).2.expectedFound = some 1 :=
  c2_first_match_wins_amended.1 litSearch "con" [SCPattern.re "AAA"] [] "" false false
    ⟨true, some 1, "BBB", []⟩ [(LineEvent.newline "zAAAz", false)] (by decide)

/-- C10: the overwrite guard of the expected scan is the truthiness of
`_matched`: (i) while the stored match is the empty string, a matching
non-sentinel pattern at the head of the remaining expected list always
(re)records its index and match, whatever index was recorded before;
(ii) concretely, with expected patterns `["", "Z"]` the single line `"aZa"`
makes `expect` return index 1 although the pattern at index 0 matched the
line (with an empty match); (iii) the overwrite also happens on a later line
while a prompt is still being awaited. -/
theorem c10_empty_match_overwrite :
    (∀ (reSearch : ReSearch) (line pat m : String)
        (rest : List SCPattern) (idx : Nat) (f0 : Option Nat),
      reSearch pat line = some m →
      scanExpected reSearch line (SCPattern.re pat :: rest) idx (f0, "")
        = scanExpected reSearch line rest (idx + 1) (some idx, m))
    ∧ ((expectMethod litSearch (mkSession "con" none)
          [SCPattern.re "", SCPattern.re "Z"] none false
          [(LineEvent.newline "aZa", false)]).1 = .ok 1
      ∧ litSearch "" "aZa" = some "")
    ∧ ((expectCore litSearch (mkSession "con" (some (.str "PROMPT")))
          [SCPattern.re "", SCPattern.re "Z"] [] false true none
          [(LineEvent.newline "qq", false), (LineEvent.newline "aZa", false),
           (LineEvent.newline "PROMPT", false)]).1 = .ok 1
      ∧ litSearch "" "qq" = some "") := by
  refine ⟨?_, by decide, by decide⟩
  intro r line pat m rest idx f0 h
  conv_lhs => unfold scanExpected
  simp [h]

/-- Witness for C10's scan-step clause at a concrete empty stored match. -/
theorem c10_empty_match_overwrite_witness :
    scanExpected litSearch "aZa" [SCPattern.re "", SCPattern.re "Z"] 0 (none, "")
      = scanExpected litSearch "aZa" [SCPattern.re "Z"] 1 (some 0, "") :=
  c10_empty_match_overwrite.1 litSearch "aZa" "" "" [SCPattern.re "Z"] 0 none (by decide)

/-- C3 (code evaluated at the failing input): a session constructed without a
prompt stores `_prompt_regex = ""` — a string, never Python `None` — so the
`is not None` test in `_expect` always succeeds and the `ValueError` branch
for "prompt required but none configured" is unreachable.  With
`wait_for_prompt=True`, no override and no configured prompt, `_expect`
resolves the prompt regex to `""` (which `re.search` matches on every line)
and reads lines instead of raising the configuration error. -/
theorem c3_prompt_config_error_unreachable :
    (mkSession "con" none).promptRegex = some ""
    ∧ (∀ (s : Session) (prompt : Option PromptSpec),
        ((set_prompt s prompt).promptRegex).isSome = true)
    ∧ (∀ (r : String) (promptArg : Option PromptSpec) (waitForPrompt : Bool),
        ∃ s, resolvePromptRegex (some r) promptArg waitForPrompt = .ok s)
    ∧ resolvePromptRegex (some "") none true = .ok ""
    ∧ (expectCore litSearch (mkSession "con" none) [SCPattern.re "AAA"] []
        false true none
        [(LineEvent.newline "zzz", false), (LineEvent.newline "AAA", false)]).1 = .ok 0
    ∧ litSearch "" "zzz" = some "" := by
  refine ⟨rfl, fun s p => rfl, ?_, rfl, by decide, by decide⟩
  intro r promptArg waitForPrompt
  cases promptArg with
  | some p => exact ⟨_, rfl⟩
  | none => exact ⟨r, rfl⟩

/-- Counterexample to C7: the public `expect` runs its cycle with
`wait_for_prompt=False` — no prompt is awaited in the cycle — yet on a
session whose configured prompt regex is the non-empty string `"PROMPT"`,
`get_output()` still drops the final captured line ("l1" instead of
"l1\nAAA"): the exclusion is keyed on the session's `_prompt_regex`, not on
whether the cycle awaited a prompt. -/
theorem c7_counterexample :
    (expectMethod litSearch (mkSession "con" (some (.str "PROMPT")))
        [SCPattern.re "AAA"] none false
        [(LineEvent.newline "l1", false), (LineEvent.newline "AAA", false)]).1 = .ok 0
    ∧ (expectMethod litSearch (mkSession "con" (some (.str "PROMPT")))
        [SCPattern.re "AAA"] none false
        [(LineEvent.newline "l1", false), (LineEvent.newline "AAA", false)]).2.outputLines
      = ["l1", "AAA"]
    ∧ get_output (expectMethod litSearch (mkSession "con" (some (.str "PROMPT")))
        [SCPattern.re "AAA"] none false
        [(LineEvent.newline "l1", false), (LineEvent.newline "AAA", false)]).2 = "l1"
    ∧ String.intercalate "\n"
        (expectMethod litSearch (mkSession "con" (some (.str "PROMPT")))
          [SCPattern.re "AAA"] none false
          [(LineEvent.newline "l1", false), (LineEvent.newline "AAA", false)]).2.outputLines
      = "l1\nAAA" := by
  refine ⟨by decide, by decide, by decide, by decide⟩

/-- C7 (amended): after any expect cycle, `get_output()` joins the captured
lines with newlines and drops the final line iff the session's configured
prompt-regex attribute is a non-empty string — independently of whether the
cycle waited for a prompt or used a prompt override, since the cycle never
changes that attribute. -/
theorem c7_output_excludes_by_session_prompt
    (reSearch : ReSearch) (sess : Session)
    (expectedIn notExpectedIn : List SCPattern) (timeoutPos waitForPrompt : Bool)
    (promptArg : Option PromptSpec) (stream : List (LineEvent × Bool)) :
    (expectCore reSearch sess expectedIn notExpectedIn timeoutPos waitForPrompt
        promptArg stream).2.promptRegex = sess.promptRegex
    ∧ get_output (expectCore reSearch sess expectedIn notExpectedIn timeoutPos
        waitForPrompt promptArg stream).2
      = (if pyTruthyStrOpt sess.promptRegex then
          String.intercalate "\n" ((expectCore reSearch sess expectedIn notExpectedIn
            timeoutPos waitForPrompt promptArg stream).2.outputLines.dropLast)
        else
          String.intercalate "\n" (expectCore reSearch sess expectedIn notExpectedIn
            timeoutPos waitForPrompt promptArg stream).2.outputLines) := by
  have hp := (expectCore_preserves_frame reSearch sess expectedIn notExpectedIn
    timeoutPos waitForPrompt promptArg stream).2.2.1
  refine ⟨hp, ?_⟩
  unfold get_output
  rw [hp]

/-- C4: with `wait_for_prompt` enabled — (i) `_expect` never returns a match
index from a state in which the prompt has not been found; (ii) when no line
of the cycle matches the prompt regex (and no not-expected pattern fires, no
EOF occurs), the first deadline check after a positive timeout raises the
connection error citing the prompt regex, even if expected patterns matched
earlier; (iii) the prompt-found flag and the pattern-found condition are both
sticky across the lines of one cycle; (iv) concretely, a pattern match on
line 1 with the prompt only on line 3 returns index 0 only after all three
lines were consumed. -/
theorem c4_prompt_gating :
    (∀ (reSearch : ReSearch) (connectionName : String)
        (expected notExpected : List SCPattern) (promptRegex : String)
        (timeoutPos : Bool) (st : ExpectState) (stream : List (LineEvent × Bool)) (i : Int),
      (expectLoop reSearch connectionName expected notExpected promptRegex
          true timeoutPos st stream).1 = .ok i →
      (expectLoop reSearch connectionName expected notExpected promptRegex
          true timeoutPos st stream).2.promptFound = true)
    ∧ (∀ (reSearch : ReSearch) (connectionName : String)
        (expected notExpected : List SCPattern) (promptRegex : String)
        (st : ExpectState) (stream : List (LineEvent × Bool)),
      st.promptFound = false →
      (∀ e ∈ stream, ∃ l, eventLine e.1 = some l
        ∧ (reSearch promptRegex l).isNone = true
        ∧ firstNotExpectedMatch reSearch notExpected l = none) →
      (∃ e ∈ stream, e.2 = true) →
      (expectLoop reSearch connectionName expected notExpected promptRegex
          true true st stream).1 = .promptNotFound promptRegex)
    ∧ (∀ (reSearch : ReSearch) (connectionName : String)
        (expected notExpected : List SCPattern) (promptRegex : String)
        (waitForPrompt timeoutPos : Bool) (st : ExpectState)
        (stream : List (LineEvent × Bool)),
      (st.promptFound = true →
        (expectLoop reSearch connectionName expected notExpected promptRegex
            waitForPrompt timeoutPos st stream).2.promptFound = true)
      ∧ (st.expectedFound.isSome = true →
        (expectLoop reSearch connectionName expected notExpected promptRegex
            waitForPrompt timeoutPos st stream).2.expectedFound.isSome = true))
    ∧ ((expectCore litSearch (mkSession "con" (some (.str "PROMPT")))
          [SCPattern.re "PAT"] [] true true none
          [(LineEvent.newline "xPATx", false), (LineEvent.newline "mid", false),
           (LineEvent.newline "PROMPT", false)]).1 = .ok 0
      ∧ (expectCore litSearch (mkSession "con" (some (.str "PROMPT")))
          [SCPattern.re "PAT"] [] true true none
          [(LineEvent.newline "xPATx", false), (LineEvent.newline "mid", false),
           (LineEvent.newline "PROMPT", false)]).2.outputLines
        = ["xPATx", "mid", "PROMPT"]
      ∧ litSearch "PAT" "xPATx" = some "PAT"
      ∧ litSearch "PROMPT" "xPATx" = none
      ∧ litSearch "PROMPT" "mid" = none) := by
  refine ⟨?_, ?_, ?_, by decide, by decide, by decide, by decide, by decide⟩
  · intro r c e ne pr t st s i h
    exact expectLoop_ok_promptFound r c e ne pr t st s i h
  · intro r c e ne pr st s hpf hstream hflag
    exact expectLoop_prompt_never_found r c e ne pr st s hpf hstream hflag
  · intro r c e ne pr w t st s
    exact ⟨fun h => expectLoop_promptFound_mono r c e ne pr w t st s h,
      fun h => expectLoop_expectedFound_mono r c e ne pr w t st s h⟩

/-- Witness for C4 at concrete runs: a cycle returning `PROMPT_ONLY` ends
with the prompt found, and a cycle whose single (deadline-flagged) line never
matches the prompt raises the prompt-not-found error although the expected
pattern matched that very line. -/
theorem c4_prompt_gating_witness :
    (expectLoop litSearch "con" [] [] "PROMPT" true false
        ⟨false, none, "", []⟩ [(LineEvent.newline "PROMPT", false)]).2.promptFound = true
    ∧ (expectLoop litSearch "con" [SCPattern.re "PAT"] [] "PROMPT" true true
        ⟨false, none, "", []⟩ [(LineEvent.newline "xPATx", true)]).1
      = .promptNotFound "PROMPT" := by
  constructor
  · exact c4_prompt_gating.1 litSearch "con" [] [] "PROMPT" false
      ⟨false, none, "", []⟩ [(LineEvent.newline "PROMPT", false)] PROMPT_ONLY (by decide)
  · refine c4_prompt_gating.2.1 litSearch "con" [SCPattern.re "PAT"] [] "PROMPT"
      ⟨false, none, "", []⟩ [(LineEvent.newline "xPATx", true)] rfl ?_ ?_
    · intro e he
      rw [List.mem_singleton] at he
      subst he
      exact ⟨"xPATx", rfl, by decide, by decide⟩
    · exact ⟨(LineEvent.newline "xPATx", true), by simp, rfl⟩

theorem echoWindowScan_none (reSearch : ReSearch) (connectionName escaped : String)
    (w : List LineEvent)
    (h : ∀ ev ∈ w, ∃ l, eventLine ev = some l
      ∧ (reSearch escaped l).isNone = true) :
    echoWindowScan reSearch connectionName escaped w = .ok false := by
  induction w with
  | nil => rfl
  | cons ev rest ih =>
    obtain ⟨l, hl, hn⟩ := h ev (List.mem_cons_self _ _)
    unfold echoWindowScan
    rw [get_line_ok_of_eventLine connectionName ev l hl]
    simp only [Option.isNone_iff_eq_none.mp hn, Option.isSome_none,
      Bool.false_eq_true, if_false]
    exact ih fun e he => h e (List.mem_cons_of_mem _ he)

theorem tail_drop_headD (windows : List (List LineEvent)) (k : Nat) :
    (windows.tail.drop k).headD [] = (windows.drop (k + 1)).headD [] := by
  rw [← List.drop_one windows, List.drop_drop, Nat.add_comm 1 k]

theorem sendRetypeLoop_all_miss (reSearch : ReSearch)
    (connectionName command escaped : String) (n : Nat)
    (windows : List (List LineEvent))
    (h : ∀ k, echoWindowScan reSearch connectionName escaped
      ((windows.drop k).headD []) = .ok false) :
    sendRetypeLoop reSearch connectionName command escaped n windows
      = (.echoNotFound (raiseException connectionName
          ("Echo of command <" ++ command ++ "> not found")
          .copperCommConnectionError),
         List.replicate n command) := by
  induction n generalizing windows with
  | zero => rfl
  | succ m ih =>
    unfold sendRetypeLoop
    have h0 := h 0
    rw [List.drop_zero] at h0
    rw [h0]
    have ht : ∀ k, echoWindowScan reSearch connectionName escaped
        ((windows.tail.drop k).headD []) = .ok false := by
      intro k
      rw [tail_drop_headD]
      exact h (k + 1)
    rw [ih windows.tail ht, List.replicate_succ]

theorem sendRetypeLoop_hit (reSearch : ReSearch)
    (connectionName command escaped : String) (n n' : Nat)
    (windows : List (List LineEvent)) (hlt : n' < n)
    (hmiss : ∀ k < n', echoWindowScan reSearch connectionName escaped
      ((windows.drop k).headD []) = .ok false)
    (hhit : echoWindowScan reSearch connectionName escaped
      ((windows.drop n').headD []) = .ok true) :
    sendRetypeLoop reSearch connectionName command escaped n windows
      = (.ok NOT_EXPECTING, List.replicate (n' + 1) command) := by
  induction n' generalizing n windows with
  | zero =>
    obtain ⟨m, rfl⟩ : ∃ m, n = m + 1 := ⟨n - 1, by omega⟩
    rw [List.drop_zero] at hhit
    unfold sendRetypeLoop
    rw [hhit]
    rfl
  | succ p ih =>
    obtain ⟨m, rfl⟩ : ∃ m, n = m + 1 := ⟨n - 1, by omega⟩
    unfold sendRetypeLoop
    have h0 := hmiss 0 (Nat.succ_pos p)
    rw [List.drop_zero] at h0
    rw [h0]
    have hm' : ∀ k < p, echoWindowScan reSearch connectionName escaped
        ((windows.tail.drop k).headD []) = .ok false := by
      intro k hk
      rw [tail_drop_headD]
      exact hmiss (k + 1) (by omega)
    have hh' : echoWindowScan reSearch connectionName escaped
        ((windows.tail.drop p).headD []) = .ok true := by
      rw [tail_drop_headD]
      exact hhit
    rw [ih m windows.tail (by omega) hm' hh']
    simp [List.replicate_succ]

theorem window_scan_of_semantic (reSearch : ReSearch)
    (connectionName escaped : String) (windows : List (List LineEvent))
    (hsem : ∀ w ∈ windows, ∀ ev ∈ w, ∃ l, eventLine ev = some l
      ∧ (reSearch escaped l).isNone = true) (k : Nat) :
    echoWindowScan reSearch connectionName escaped
      ((windows.drop k).headD []) = .ok false := by
  cases hd : windows.drop k with
  | nil => rfl
  | cons w t =>
    have hw : w ∈ windows :=
      List.drop_subset k windows (hd ▸ List.mem_cons_self w t)
    simp only [List.headD_cons]
    exact echoWindowScan_none reSearch connectionName escaped w (hsem w hw)

/-- C5: with `check_echo` and retype budget `N ≥ 1` — (i) if no line pulled
during any per-attempt echo window contains the regex-escaped command text,
`_send_command` writes the full command exactly `N` times and then raises
the `CopperCommConnectionError` whose message names the command; (ii) if the
windows of the first `N'` attempts miss and the `(N'+1)`-th attempt's window
contains the escaped text (`N' < N`), it returns normally after exactly
`N'+1` writes, each write resending the full command. -/
theorem c5_echo_retry_bound (reSearch : ReSearch)
    (connectionName command : String) (N N' : Nat)
    (windows : List (List LineEvent)) :
    (1 ≤ N →
      (∀ w ∈ windows, ∀ ev ∈ w, ∃ l, eventLine ev = some l
        ∧ (reSearch (reEscape command) l).isNone = true) →
      send_command_core reSearch connectionName command (N : Int) true windows
        = (.echoNotFound (raiseException connectionName
            ("Echo of command <" ++ command ++ "> not found")
            .copperCommConnectionError),
           List.replicate N command))
    ∧ (N' < N →
      (∀ k < N', echoWindowScan reSearch connectionName (reEscape command)
        ((windows.drop k).headD []) = .ok false) →
      echoWindowScan reSearch connectionName (reEscape command)
        ((windows.drop N').headD []) = .ok true →
      send_command_core reSearch connectionName command (N : Int) true windows
        = (.ok NOT_EXPECTING, List.replicate (N' + 1) command)) := by
  constructor
  · intro _ hsem
    unfold send_command_core
    rw [if_pos rfl, Int.toNat_natCast]
    exact sendRetypeLoop_all_miss reSearch connectionName command (reEscape command)
      N windows
      (window_scan_of_semantic reSearch connectionName (reEscape command) windows hsem)
  · intro hlt hmiss hhit
    unfold send_command_core
    rw [if_pos rfl, Int.toNat_natCast]
    exact sendRetypeLoop_hit reSearch connectionName command (reEscape command)
      N N' windows hlt hmiss hhit

/-- Witness for C5: with budget 2, a stream that never echoes `ls` yields
exactly two writes and the raising result naming the command, while an echo
in the second attempt's window yields a normal return after exactly two
writes. -/
theorem c5_echo_retry_bound_witness :
    send_command_core litSearch "con" "ls" (2 : Int) true
        [[LineEvent.newline "foo"], [LineEvent.newline "bar"]]
      = (.echoNotFound (raiseException "con"
          ("Echo of command <" ++ "ls" ++ "> not found")
          .copperCommConnectionError),
         List.replicate 2 "ls")
    ∧ send_command_core litSearch "con" "ls" (2 : Int) true
        [[LineEvent.newline "foo"], [LineEvent.newline "xlsx"]]
      = (.ok NOT_EXPECTING, List.replicate (1 + 1) "ls") := by
  constructor
  · refine (c5_echo_retry_bound litSearch "con" "ls" 2 0
      [[LineEvent.newline "foo"], [LineEvent.newline "bar"]]).1 (by decide) ?_
    intro w hw ev he
    fin_cases hw <;> fin_cases he <;> exact ⟨_, rfl, by decide⟩
  · exact (c5_echo_retry_bound litSearch "con" "ls" 2 1
      [[LineEvent.newline "foo"], [LineEvent.newline "xlsx"]]).2 (by decide)
      (fun k hk => by
        obtain rfl : k = 0 := by omega
        rfl)
      rfl

theorem timeoutBranch_eq_spec (expected : List SCPattern) (promptRegex : String)
    (waitForPrompt : Bool) (st : ExpectState) :
    timeoutBranch expected promptRegex waitForPrompt st
      = timeoutOutcomeSpec expected promptRegex waitForPrompt st.promptFound := by
  unfold timeoutBranch timeoutOutcomeSpec
  by_cases h1 : (waitForPrompt && !st.promptFound) = true
  · rw [if_pos h1, if_pos h1]
  · rw [if_neg h1, if_neg h1]
    by_cases h2 : expected = []
    · rw [if_pos (by simp [h2]), if_pos h2]
    · rw [if_neg (by simp [List.isEmpty_iff, h2]), if_neg h2]
      by_cases h3 : SCPattern.timeoutSentinel ∈ expected
      · rw [if_pos (List.elem_iff.mpr h3), if_pos h3]
      · rw [if_neg (fun hc => h3 (List.elem_iff.mp hc)), if_neg h3]

theorem processLine_raise_of_some (reSearch : ReSearch)
    (expected notExpected : List SCPattern) (promptRegex : String)
    (waitForPrompt : Bool) (st : ExpectState) (line : String) (p : SCPattern)
    (hfn : firstNotExpectedMatch reSearch notExpected line = some p) :
    (processLine reSearch expected notExpected promptRegex waitForPrompt st line).2
      = some (.raiseUnexpected p) := by
  unfold processLine
  simp only [hfn]

theorem processLine_ret_val (reSearch : ReSearch)
    (expected notExpected : List SCPattern) (promptRegex : String)
    (waitForPrompt : Bool) (st : ExpectState) (line : String)
    (hfn : firstNotExpectedMatch reSearch notExpected line = none) :
    (processLine reSearch expected notExpected promptRegex waitForPrompt st line).2 = none
    ∨ (processLine reSearch expected notExpected promptRegex waitForPrompt st line).2
      = some (.ret (match (processLine reSearch expected notExpected promptRegex
          waitForPrompt st line).1.expectedFound with
        | some n => (n : Int)
        | none => PROMPT_ONLY)) := by
  unfold processLine
  simp only [hfn]
  split <;> split <;> simp

theorem scanExpected_sentinels (reSearch : ReSearch) (line : String)
    (l : List SCPattern) (idx : Nat) (acc : Option Nat × String)
    (h : ∀ p ∈ l, p = SCPattern.timeoutSentinel) :
    scanExpected reSearch line l idx acc = acc := by
  induction l generalizing idx with
  | nil => rfl
  | cons p rest ih =>
    have hp := h p (List.mem_cons_self _ _)
    subst hp
    unfold scanExpected
    exact ih _ (fun q hq => h q (List.mem_cons_of_mem _ hq))

theorem list_isEmpty_false_of_ne {α : Type} (l : List α) (h : l ≠ []) :
    l.isEmpty = false := by
  cases l with
  | nil => exact absurd rfl h
  | cons a t => rfl

theorem processLine_sentinels (reSearch : ReSearch)
    (expected notExpected : List SCPattern) (promptRegex : String)
    (waitForPrompt : Bool) (st : ExpectState) (line : String)
    (hsent : ∀ p ∈ expected, p = SCPattern.timeoutSentinel)
    (hne : expected ≠ []) (hst : st.expectedFound = none)
    (hfn : firstNotExpectedMatch reSearch notExpected line = none) :
    (processLine reSearch expected notExpected promptRegex waitForPrompt st line).2 = none
    ∧ (processLine reSearch expected notExpected promptRegex
        waitForPrompt st line).1.expectedFound = none := by
  have hemp : expected.isEmpty = false := list_isEmpty_false_of_ne expected hne
  unfold processLine
  simp only [hfn]
  split
  all_goals rw [scanExpected_sentinels reSearch line expected _ _ hsent]
  all_goals simp [hst, hemp]

theorem expectLoop_no_deadline (reSearch : ReSearch) (connectionName : String)
    (expected notExpected : List SCPattern) (promptRegex : String)
    (waitForPrompt : Bool) (st : ExpectState)
    (stream : List (LineEvent × Bool)) :
    (∀ r, (expectLoop reSearch connectionName expected notExpected promptRegex
        waitForPrompt false st stream).1 ≠ .promptNotFound r)
    ∧ (expectLoop reSearch connectionName expected notExpected promptRegex
        waitForPrompt false st stream).1 ≠ .expectedNotFound
    ∧ (∀ i, (expectLoop reSearch connectionName expected notExpected promptRegex
        waitForPrompt false st stream).1 = .ok i → i ≠ NOT_EXPECTING) := by
  induction stream generalizing st with
  | nil =>
    exact ⟨fun r h => by simp [expectLoop] at h, by simp [expectLoop],
      fun i h => by simp [expectLoop] at h⟩
  | cons e rest ih =>
    obtain ⟨ev, dl⟩ := e
    unfold expectLoop
    cases hg : get_line connectionName ev with
    | error err =>
      refine ⟨fun r h => ?_, fun h => ?_, fun i h => ?_⟩ <;> simp [hg] at h
    | ok line =>
      cases hd : (processLine reSearch expected notExpected promptRegex
          waitForPrompt st line).2 with
      | some dec =>
        cases dec with
        | ret j =>
          have hj : j ≠ NOT_EXPECTING := by
            cases hfn : firstNotExpectedMatch reSearch notExpected line with
            | some p =>
              rw [processLine_raise_of_some reSearch expected notExpected promptRegex
                waitForPrompt st line p hfn] at hd
              simp at hd
            | none =>
              rcases processLine_ret_val reSearch expected notExpected promptRegex
                waitForPrompt st line hfn with h0 | h0
              · rw [h0] at hd; simp at hd
              · rw [h0] at hd
                have hj' := Option.some_injective _ hd
                cases hf : (processLine reSearch expected notExpected promptRegex
                    waitForPrompt st line).1.expectedFound with
                | some n =>
                  rw [hf] at hj'
                  simp only [StepDecision.ret.injEq] at hj'
                  rw [← hj']
                  unfold NOT_EXPECTING
                  omega
                | none =>
                  rw [hf] at hj'
                  simp only [StepDecision.ret.injEq] at hj'
                  rw [← hj']
                  decide
          refine ⟨fun r h => ?_, fun h => ?_, fun i h => ?_⟩
          · simp [hg, hd] at h
          · simp [hg, hd] at h
          · simp [hg, hd] at h
            exact h ▸ hj
        | raiseUnexpected p =>
          refine ⟨fun r h => ?_, fun h => ?_, fun i h => ?_⟩ <;> simp [hg, hd] at h
      | none =>
        simp only [hg, hd, Bool.false_and, Bool.false_eq_true, if_false]
        exact ih _

theorem expectLoop_sentinels_no_ok (reSearch : ReSearch) (connectionName : String)
    (expected notExpected : List SCPattern) (promptRegex : String)
    (waitForPrompt : Bool) (st : ExpectState) (stream : List (LineEvent × Bool))
    (hsent : ∀ p ∈ expected, p = SCPattern.timeoutSentinel)
    (hne : expected ≠ []) (hst : st.expectedFound = none) (i : Int) :
    (expectLoop reSearch connectionName expected notExpected promptRegex
        waitForPrompt false st stream).1 ≠ .ok i := by
  induction stream generalizing st with
  | nil => simp [expectLoop]
  | cons e rest ih =>
    obtain ⟨ev, dl⟩ := e
    unfold expectLoop
    cases hg : get_line connectionName ev with
    | error err => simp [hg]
    | ok line =>
      cases hfn : firstNotExpectedMatch reSearch notExpected line with
      | some p =>
        simp [hg, processLine_raise_of_some reSearch expected notExpected promptRegex
          waitForPrompt st line p hfn]
      | none =>
        obtain ⟨hd, hf⟩ := processLine_sentinels reSearch expected notExpected
          promptRegex waitForPrompt st line hsent hne hst hfn
        simp only [hg, hd, Bool.false_and, Bool.false_eq_true, if_false]
        exact ih _ hf

/-- C6: (i) at the first deadline check that fires (positive timeout, line
processed with no decision yet), `_expect`'s result and state follow exactly
the cascade stated by the specification — prompt required and never found →
connection error citing the prompt regex; empty expected list →
`NOT_EXPECTING`; timeout sentinel among the expected patterns → its first
index; otherwise → expected-pattern-not-found — evaluated on the state after
that line; (ii)–(v) with a non-positive timeout the deadline branch is never
taken: the loop never raises prompt-not-found or expected-not-found, never
returns `NOT_EXPECTING`, and never returns a sentinel index when only
sentinels are expected. -/
theorem c6_timeout_order :
    (∀ (reSearch : ReSearch) (connectionName : String)
        (expected notExpected : List SCPattern) (promptRegex : String)
        (waitForPrompt : Bool) (st : ExpectState) (ev : LineEvent) (line : String)
        (rest : List (LineEvent × Bool)),
      get_line connectionName ev = .ok line →
      (processLine reSearch expected notExpected promptRegex waitForPrompt st line).2
        = none →
      expectLoop reSearch connectionName expected notExpected promptRegex
          waitForPrompt true st ((ev, true) :: rest)
        = (timeoutOutcomeSpec expected promptRegex waitForPrompt
            (processLine reSearch expected notExpected promptRegex
              waitForPrompt st line).1.promptFound,
           (processLine reSearch expected notExpected promptRegex
              waitForPrompt st line).1))
    ∧ (∀ (reSearch : ReSearch) (connectionName : String)
        (expected notExpected : List SCPattern) (promptRegex : String)
        (waitForPrompt : Bool) (st : ExpectState) (stream : List (LineEvent × Bool)),
      (∀ r, (expectLoop reSearch connectionName expected notExpected promptRegex
          waitForPrompt false st stream).1 ≠ .promptNotFound r)
      ∧ (expectLoop reSearch connectionName expected notExpected promptRegex
          waitForPrompt false st stream).1 ≠ .expectedNotFound
      ∧ (∀ i, (expectLoop reSearch connectionName expected notExpected promptRegex
          waitForPrompt false st stream).1 = .ok i → i ≠ NOT_EXPECTING))
    ∧ (∀ (reSearch : ReSearch) (connectionName : String)
        (expected notExpected : List SCPattern) (promptRegex : String)
        (waitForPrompt : Bool) (st : ExpectState) (stream : List (LineEvent × Bool)),
      (∀ p ∈ expected, p = SCPattern.timeoutSentinel) → expected ≠ [] →
      st.expectedFound = none →
      ∀ i, (expectLoop reSearch connectionName expected notExpected promptRegex
          waitForPrompt false st stream).1 ≠ .ok i) := by
  refine ⟨?_, ?_, ?_⟩
  · intro r c e ne pr w st ev line rest hok hnd
    unfold expectLoop
    rw [hok]
    simp only [hnd, Bool.and_self, if_true]
    rw [timeoutBranch_eq_spec]
  · intro r c e ne pr w st s
    exact expectLoop_no_deadline r c e ne pr w st s
  · intro r c e ne pr w st s hsent hne hst i
    exact expectLoop_sentinels_no_ok r c e ne pr w st s hsent hne hst i

/-- Witness for C6's deadline-step clause at a concrete expiring cycle whose
expected list holds a regex and a timeout sentinel. -/
theorem c6_timeout_order_witness :
    expectLoop litSearch "con" [SCPattern.re "X", SCPattern.timeoutSentinel] [] ""
        false true ⟨true, none, "", []⟩ [(LineEvent.newline "zz", true)]
      = (timeoutOutcomeSpec [SCPattern.re "X", SCPattern.timeoutSentinel] "" false
          (processLine litSearch [SCPattern.re "X", SCPattern.timeoutSentinel] [] ""
            false ⟨true, none, "", []⟩ "zz").1.promptFound,
         (processLine litSearch [SCPattern.re "X", SCPattern.timeoutSentinel] [] ""
            false ⟨true, none, "", []⟩ "zz").1) :=
  c6_timeout_order.1 litSearch "con" [SCPattern.re "X", SCPattern.timeoutSentinel] []
    "" false ⟨true, none, "", []⟩ (LineEvent.newline "zz") "zz" [] rfl (by decide)

end Coppercomm
